import Mathlib

/- Shallow embedding of the environment-construction logic of
   realros/templates/task_envs/MyRealTaskEnv.py and MyRealTaskGoalEnv.py
   (repository ncbdrck/ros_rl): the roscore negotiation in `__init__`
   (lines 62-97 of both files), the `_launch_roscore` static method, the
   unimplemented extension-point stubs, and the goal variant's observation
   space (MyRealTaskGoalEnv.py lines 129-138).

   Ports are modelled as strings, the form in which the code passes them
   around (`roscore_port: str`); the numeric default `11311` becomes the
   string "11311".  Calls into the external collaborators
   (realros.utils.ros_common, rospy, the base robot environment) are
   recorded in order as effect events; the results those collaborators
   return are supplied by a `RosCollab` record, so every theorem below
   quantifies over the collaborators' behaviour unless a claim fixes it. -/

/-- Events the constructor and the launch helper emit toward external
    collaborators, in program order.  `stubCall` would mark an invocation of
    an unimplemented extension point; the construction code never emits it. -/
inductive RosEffect where
  | launchRoscore (port : String) (set_new_master_vars : Bool) (default_port : Bool)
  | changeRosMaster (port : String)
  | printMsg (msg : String)
  | logInfo (msg : String)
  | initNode (name : String) (anonymous : Bool)
  | superInit (ros_port : Option String) (seed : Option Int)
      (reset_env_prompt : Bool) (action_cycle_time : Rat)
  | stubCall (name : String)
deriving DecidableEq

/-- Modelled from the spec: results of the out-of-scope collaborators in
    realros.utils.ros_common (not under src/).  `launch_roscore` is §6's
    `launch(port, forceNewMaster, useDefaultPort) -> port`;
    `is_roscore_running` is `isRunning() -> bool`, a side-effect-free probe. -/
structure RosCollab where
  launch_roscore : String → Bool → Bool → String
  is_roscore_running : Bool

/-- Result of a constructor run: the resolved port, the node name, and the
    ordered trace of collaborator calls. -/
structure InitResult where
  ros_port : Option String
  node_name : String
  effects : List RosEffect
deriving DecidableEq

/-- MyRealTaskEnv._launch_roscore (MyRealTaskEnv.py lines 248-266): default
    the port to 11311 when unset, start the roscore, switch the ros master
    to the returned port, return that port.  The returned value is paired
    with the effect trace of the call. -/
def MyRealTaskEnv._launch_roscore (collab : RosCollab) (port : Option String)
    (set_new_master_vars : Bool) (default_port : Bool) : String × List RosEffect :=
  let port := port.getD "11311"
  let ros_port := collab.launch_roscore port set_new_master_vars default_port
  (ros_port,
    [RosEffect.launchRoscore port set_new_master_vars default_port,
     RosEffect.changeRosMaster ros_port])

/-- MyRealTaskEnv.__init__ (MyRealTaskEnv.py lines 30-142): the roscore
    negotiation (lines 62-89), node-name derivation (92-95), node
    registration (97), log lines and the delegation to the base robot
    environment constructor (136-137), all recorded as events. -/
def MyRealTaskEnv.init (collab : RosCollab) (new_roscore : Bool)
    (roscore_port : Option String) (seed : Option Int) (reset_env_prompt : Bool)
    (action_cycle_time : Rat) (default_port : Bool) : InitResult :=
  let resolved : Option String × List RosEffect :=
    if default_port then
      let r := MyRealTaskEnv._launch_roscore collab none false default_port
      (some r.1, r.2)
    else if new_roscore then
      let r := MyRealTaskEnv._launch_roscore collab roscore_port false false
      (some r.1, r.2)
    else
      match roscore_port with
      | some p => (some p, [RosEffect.changeRosMaster p])
      | none =>
        if collab.is_roscore_running = false then
          let r := MyRealTaskEnv._launch_roscore collab roscore_port false false
          (some r.1,
            RosEffect.printMsg "roscore is not running! Launching a new roscore!" :: r.2)
        else (none, [])
  let ros_port := resolved.1
  let node_name :=
    match ros_port with
    | some p => "TaskEnv" ++ "_" ++ p
    | none => "TaskEnv"
  { ros_port := ros_port
    node_name := node_name
    effects := resolved.2 ++
      [RosEffect.initNode node_name true,
       RosEffect.logInfo "Starting Custom Task Env",
       RosEffect.superInit ros_port seed reset_env_prompt action_cycle_time,
       RosEffect.logInfo "Finished Init of Custom Task Env"] }

/-- Gymnasium space skeleton: a numeric Box with its bounds and shape (the
    floating-point dtype is not modelled), or a Dict space as an ordered
    key/space association list. -/
inductive Space where
  | box (low high : Int) (shape : List Nat)
  | dict (entries : List (String × Space))

/-- Top-level keys of a Dict space, in declaration order (empty for a
    non-Dict space). -/
def Space.topKeys : Space → List String
  | Space.dict es => es.map Prod.fst
  | _ => []

/-- Result of the goal-conditioned constructor: as `InitResult`, plus the
    spaces set in MyRealTaskGoalEnv.py lines 129-138. -/
structure GoalInitResult where
  ros_port : Option String
  node_name : String
  achieved_goal_space : Space
  desired_goal_space : Space
  observation_space : Space
  effects : List RosEffect

/-- MyRealTaskGoalEnv._launch_roscore (MyRealTaskGoalEnv.py lines 287-305),
    textually identical to the plain variant's helper. -/
def MyRealTaskGoalEnv._launch_roscore (collab : RosCollab) (port : Option String)
    (set_new_master_vars : Bool) (default_port : Bool) : String × List RosEffect :=
  let port := port.getD "11311"
  let ros_port := collab.launch_roscore port set_new_master_vars default_port
  (ros_port,
    [RosEffect.launchRoscore port set_new_master_vars default_port,
     RosEffect.changeRosMaster ros_port])

/-- MyRealTaskGoalEnv.__init__ (MyRealTaskGoalEnv.py lines 30-156): same
    roscore negotiation and identity logic as the plain variant (lines
    62-97), then the goal/observation spaces (129-138), then the super-class
    delegation (150-151). -/
def MyRealTaskGoalEnv.init (collab : RosCollab) (new_roscore : Bool)
    (roscore_port : Option String) (seed : Option Int) (reset_env_prompt : Bool)
    (action_cycle_time : Rat) (default_port : Bool) : GoalInitResult :=
  let resolved : Option String × List RosEffect :=
    if default_port then
      let r := MyRealTaskGoalEnv._launch_roscore collab none false default_port
      (some r.1, r.2)
    else if new_roscore then
      let r := MyRealTaskGoalEnv._launch_roscore collab roscore_port false false
      (some r.1, r.2)
    else
      match roscore_port with
      | some p => (some p, [RosEffect.changeRosMaster p])
      | none =>
        if collab.is_roscore_running = false then
          let r := MyRealTaskGoalEnv._launch_roscore collab roscore_port false false
          (some r.1,
            RosEffect.printMsg "roscore is not running! Launching a new roscore!" :: r.2)
        else (none, [])
  let ros_port := resolved.1
  let node_name :=
    match ros_port with
    | some p => "TaskEnv" ++ "_" ++ p
    | none => "TaskEnv"
  let achieved_goal_space := Space.box 0 1 [3]
  let desired_goal_space := Space.box 0 1 [3]
  { ros_port := ros_port
    node_name := node_name
    achieved_goal_space := achieved_goal_space
    desired_goal_space := desired_goal_space
    observation_space := Space.dict
      [("observation", Space.box 0 1 [5]),
       ("achieved_goal", achieved_goal_space),
       ("desired_goal", desired_goal_space)]
    effects := resolved.2 ++
      [RosEffect.initNode node_name true,
       RosEffect.logInfo "Starting Custom Task Env",
       RosEffect.superInit ros_port seed reset_env_prompt action_cycle_time,
       RosEffect.logInfo "Finished Init of Custom Task Env"] }

/-- Error raised by every unimplemented template method: Python's
    NotImplementedError. -/
inductive TaskError where
  | notImplementedError
deriving DecidableEq

/-- MyRealTaskEnv._set_init_params (lines 147-159): unimplemented stub. -/
def MyRealTaskEnv._set_init_params {α : Type} (options : Option α) :
    Except TaskError Unit :=
  Except.error TaskError.notImplementedError

/-- MyRealTaskEnv._set_action (lines 161-171): unimplemented stub. -/
def MyRealTaskEnv._set_action {α : Type} (action : α) : Except TaskError Unit :=
  Except.error TaskError.notImplementedError

/-- MyRealTaskEnv._get_observation (lines 173-184): unimplemented stub. -/
def MyRealTaskEnv._get_observation {α : Type} : Except TaskError α :=
  Except.error TaskError.notImplementedError

/-- MyRealTaskEnv._get_reward (lines 186-200): unimplemented stub. -/
def MyRealTaskEnv._get_reward {α : Type} (info : Option α) : Except TaskError Rat :=
  Except.error TaskError.notImplementedError

/-- MyRealTaskEnv._compute_terminated (lines 202-216): unimplemented stub. -/
def MyRealTaskEnv._compute_terminated {α : Type} (info : Option α) :
    Except TaskError Bool :=
  Except.error TaskError.notImplementedError

/-- MyRealTaskEnv._compute_truncated (lines 218-234): unimplemented stub. -/
def MyRealTaskEnv._compute_truncated {α : Type} (info : Option α) :
    Except TaskError Bool :=
  Except.error TaskError.notImplementedError

/-- MyRealTaskGoalEnv._set_init_params (lines 161-173): unimplemented stub. -/
def MyRealTaskGoalEnv._set_init_params {α : Type} (options : Option α) :
    Except TaskError Unit :=
  Except.error TaskError.notImplementedError

/-- MyRealTaskGoalEnv._set_action (lines 175-185): unimplemented stub. -/
def MyRealTaskGoalEnv._set_action {α : Type} (action : α) : Except TaskError Unit :=
  Except.error TaskError.notImplementedError

/-- MyRealTaskGoalEnv._get_observation (lines 187-198): unimplemented stub. -/
def MyRealTaskGoalEnv._get_observation {α : Type} : Except TaskError α :=
  Except.error TaskError.notImplementedError

/-- MyRealTaskGoalEnv._get_achieved_goal (lines 200-207): unimplemented stub. -/
def MyRealTaskGoalEnv._get_achieved_goal {α : Type} : Except TaskError α :=
  Except.error TaskError.notImplementedError

/-- MyRealTaskGoalEnv._get_desired_goal (lines 209-216): unimplemented stub. -/
def MyRealTaskGoalEnv._get_desired_goal {α : Type} : Except TaskError α :=
  Except.error TaskError.notImplementedError

/-- MyRealTaskGoalEnv.compute_reward (lines 218-235): unimplemented stub
    (the source annotates the return type as float). -/
def MyRealTaskGoalEnv.compute_reward {γ ι : Type} (achieved_goal desired_goal : γ)
    (info : ι) : Except TaskError Rat :=
  Except.error TaskError.notImplementedError

/-- MyRealTaskGoalEnv.compute_terminated (lines 237-253): unimplemented stub. -/
def MyRealTaskGoalEnv.compute_terminated {γ ι : Type} (achieved_goal desired_goal : γ)
    (info : ι) : Except TaskError Bool :=
  Except.error TaskError.notImplementedError

/-- MyRealTaskGoalEnv.compute_truncated (lines 255-273): unimplemented stub. -/
def MyRealTaskGoalEnv.compute_truncated {γ ι : Type} (achieved_goal desired_goal : γ)
    (info : ι) : Except TaskError Bool :=
  Except.error TaskError.notImplementedError

/-- Whether an event is a process launch. -/
def RosEffect.isLaunch : RosEffect → Bool
  | RosEffect.launchRoscore _ _ _ => true
  | _ => false

/-- Whether an event is a node registration. -/
def RosEffect.isInitNode : RosEffect → Bool
  | RosEffect.initNode _ _ => true
  | _ => false

/-- Whether an event is an extension-point invocation. -/
def RosEffect.isStubCall : RosEffect → Bool
  | RosEffect.stubCall _ => true
  | _ => false

/-- Number of process launches recorded in a trace. -/
def countLaunches (es : List RosEffect) : Nat :=
  (es.filter RosEffect.isLaunch).length

/-- The four mutually exclusive §4.1 actions of the process manager. -/
inductive ActionKind where
  | defaultPortLaunch
  | newProcessLaunch
  | attachToGivenPort
  | autoDetect
deriving DecidableEq

/-- Action a constructor run actually took, read off the head of its effect
    trace: an immediate launch carrying the default_port flag is the
    default-port launch, any other immediate launch is the new-process
    launch, an immediate master rebind is the attach action, and anything
    else (a probe first, or no collaborator call at all) is auto-detect. -/
def actionTaken (r : InitResult) : ActionKind :=
  match r.effects with
  | RosEffect.launchRoscore _ _ true :: _ => ActionKind.defaultPortLaunch
  | RosEffect.launchRoscore _ _ false :: _ => ActionKind.newProcessLaunch
  | RosEffect.changeRosMaster _ :: _ => ActionKind.attachToGivenPort
  | _ => ActionKind.autoDetect

/-- Same classifier for the goal-conditioned constructor's trace. -/
def goalActionTaken (r : GoalInitResult) : ActionKind :=
  match r.effects with
  | RosEffect.launchRoscore _ _ true :: _ => ActionKind.defaultPortLaunch
  | RosEffect.launchRoscore _ _ false :: _ => ActionKind.newProcessLaunch
  | RosEffect.changeRosMaster _ :: _ => ActionKind.attachToGivenPort
  | _ => ActionKind.autoDetect

/-- Modelled from the spec: the §4.1 tie-break rule, written from the spec's
    words — default_port strictly dominates new_roscore, which dominates a
    supplied roscore_port, which dominates auto-detect. -/
def specPriority (new_roscore : Bool) (roscore_port : Option String)
    (default_port : Bool) : ActionKind :=
  if default_port then ActionKind.defaultPortLaunch
  else if new_roscore then ActionKind.newProcessLaunch
  else if roscore_port.isSome then ActionKind.attachToGivenPort
  else ActionKind.autoDetect

/-- Modelled from the spec: §4.2's pure `resolveName(resolvedPort)` —
    "TaskEnv_" followed by the port when one was resolved, else the literal
    "TaskEnv". -/
def resolveName : Option String → String
  | some p => "TaskEnv_" ++ p
  | none => "TaskEnv"

/-- Modelled from the spec: a collaborator whose `launch` starts a broker at
    exactly the requested port and returns it (§4.1: `launch(...) ->
    resolvedPort`), with a broker already reachable at the default endpoint. -/
def echoCollab : RosCollab where
  launch_roscore := fun p _ _ => p
  is_roscore_running := true

theorem taskEnv_underscore (p : String) : "TaskEnv" ++ "_" ++ p = "TaskEnv_" ++ p :=
  rfl

/-- C1: for every combination of the construction flags, both constructors
    take exactly the §4.1 action dictated by the priority order default_port
    > new_roscore > roscore_port > auto-detect, and each records at most one
    process launch per construction call. -/
theorem construction_priority_order (collab : RosCollab) (new_roscore : Bool)
    (roscore_port : Option String) (seed : Option Int) (reset_env_prompt : Bool)
    (action_cycle_time : Rat) (default_port : Bool) :
    actionTaken (MyRealTaskEnv.init collab new_roscore roscore_port seed
        reset_env_prompt action_cycle_time default_port) =
      specPriority new_roscore roscore_port default_port ∧
    countLaunches (MyRealTaskEnv.init collab new_roscore roscore_port seed
        reset_env_prompt action_cycle_time default_port).effects ≤ 1 ∧
    goalActionTaken (MyRealTaskGoalEnv.init collab new_roscore roscore_port seed
        reset_env_prompt action_cycle_time default_port) =
      specPriority new_roscore roscore_port default_port ∧
    countLaunches (MyRealTaskGoalEnv.init collab new_roscore roscore_port seed
        reset_env_prompt action_cycle_time default_port).effects ≤ 1 := by
  cases default_port <;> cases new_roscore <;> cases roscore_port <;>
    cases h : collab.is_roscore_running <;>
      simp [MyRealTaskEnv.init, MyRealTaskEnv._launch_roscore,
        MyRealTaskGoalEnv.init, MyRealTaskGoalEnv._launch_roscore,
        actionTaken, goalActionTaken, specPriority, countLaunches,
        RosEffect.isLaunch, h]

/-- C2: for every construction, the node name of either variant is exactly
    §4.2's resolveName applied to the resolved port, and resolveName maps a
    null port to "TaskEnv" and a resolved port p to "TaskEnv_" ++ p. -/
theorem node_name_resolves_port (collab : RosCollab) (new_roscore : Bool)
    (roscore_port : Option String) (seed : Option Int) (reset_env_prompt : Bool)
    (action_cycle_time : Rat) (default_port : Bool) :
    (MyRealTaskEnv.init collab new_roscore roscore_port seed
        reset_env_prompt action_cycle_time default_port).node_name =
      resolveName (MyRealTaskEnv.init collab new_roscore roscore_port seed
        reset_env_prompt action_cycle_time default_port).ros_port ∧
    (MyRealTaskGoalEnv.init collab new_roscore roscore_port seed
        reset_env_prompt action_cycle_time default_port).node_name =
      resolveName (MyRealTaskGoalEnv.init collab new_roscore roscore_port seed
        reset_env_prompt action_cycle_time default_port).ros_port ∧
    resolveName none = "TaskEnv" ∧
    (∀ p : String, resolveName (some p) = "TaskEnv_" ++ p) := by
  refine ⟨?_, ?_, rfl, fun p => rfl⟩ <;>
    cases default_port <;> cases new_roscore <;> cases roscore_port <;>
      cases h : collab.is_roscore_running <;>
        simp [MyRealTaskEnv.init, MyRealTaskEnv._launch_roscore,
          MyRealTaskGoalEnv.init, MyRealTaskGoalEnv._launch_roscore,
          resolveName, taskEnv_underscore, h]

/-- C8: every invocation of either variant's _launch_roscore defaults an
    unset port to "11311" before the launch event, then rebinds the ros
    master to the port the launch returned, and returns exactly that port. -/
theorem launch_defaults_and_rebinds (collab : RosCollab) (port : Option String)
    (set_new_master_vars : Bool) (default_port : Bool) :
    (MyRealTaskEnv._launch_roscore collab port set_new_master_vars default_port).2 =
      [RosEffect.launchRoscore (port.getD "11311") set_new_master_vars default_port,
       RosEffect.changeRosMaster
         (collab.launch_roscore (port.getD "11311") set_new_master_vars default_port)] ∧
    (MyRealTaskEnv._launch_roscore collab port set_new_master_vars default_port).1 =
      collab.launch_roscore (port.getD "11311") set_new_master_vars default_port ∧
    (MyRealTaskGoalEnv._launch_roscore collab port set_new_master_vars default_port).2 =
      [RosEffect.launchRoscore (port.getD "11311") set_new_master_vars default_port,
       RosEffect.changeRosMaster
         (collab.launch_roscore (port.getD "11311") set_new_master_vars default_port)] ∧
    (MyRealTaskGoalEnv._launch_roscore collab port set_new_master_vars default_port).1 =
      collab.launch_roscore (port.getD "11311") set_new_master_vars default_port :=
  ⟨rfl, rfl, rfl, rfl⟩

/-- C10: the plain and the goal-conditioned constructors implement identical
    middleware-negotiation and identity logic: for the same inputs and the
    same collaborator behaviour they resolve the same port, compute the same
    node name, and emit the same effect trace. -/
theorem plain_goal_equivalence (collab : RosCollab) (new_roscore : Bool)
    (roscore_port : Option String) (seed : Option Int) (reset_env_prompt : Bool)
    (action_cycle_time : Rat) (default_port : Bool) :
    (MyRealTaskGoalEnv.init collab new_roscore roscore_port seed
        reset_env_prompt action_cycle_time default_port).ros_port =
      (MyRealTaskEnv.init collab new_roscore roscore_port seed
        reset_env_prompt action_cycle_time default_port).ros_port ∧
    (MyRealTaskGoalEnv.init collab new_roscore roscore_port seed
        reset_env_prompt action_cycle_time default_port).node_name =
      (MyRealTaskEnv.init collab new_roscore roscore_port seed
        reset_env_prompt action_cycle_time default_port).node_name ∧
    (MyRealTaskGoalEnv.init collab new_roscore roscore_port seed
        reset_env_prompt action_cycle_time default_port).effects =
      (MyRealTaskEnv.init collab new_roscore roscore_port seed
        reset_env_prompt action_cycle_time default_port).effects :=
  ⟨rfl, rfl, rfl⟩

theorem taskEnv_append_ne_empty (s : String) : "TaskEnv" ++ s ≠ "" := by
  intro h
  have h2 : ("TaskEnv" ++ s).data = ("" : String).data := congrArg String.data h
  have h3 : ("TaskEnv" ++ s).data = ('T' : Char) :: ("askEnv".data ++ s.data) := rfl
  rw [h3] at h2
  simp at h2

theorem plain_init_node_name (collab : RosCollab) (new_roscore : Bool)
    (roscore_port : Option String) (seed : Option Int) (reset_env_prompt : Bool)
    (action_cycle_time : Rat) (default_port : Bool) :
    (MyRealTaskEnv.init collab new_roscore roscore_port seed
        reset_env_prompt action_cycle_time default_port).node_name =
      resolveName (MyRealTaskEnv.init collab new_roscore roscore_port seed
        reset_env_prompt action_cycle_time default_port).ros_port := by
  cases default_port <;> cases new_roscore <;> cases roscore_port <;>
    cases h : collab.is_roscore_running <;>
      simp [MyRealTaskEnv.init, MyRealTaskEnv._launch_roscore, resolveName,
        taskEnv_underscore, h]

theorem goal_init_node_name (collab : RosCollab) (new_roscore : Bool)
    (roscore_port : Option String) (seed : Option Int) (reset_env_prompt : Bool)
    (action_cycle_time : Rat) (default_port : Bool) :
    (MyRealTaskGoalEnv.init collab new_roscore roscore_port seed
        reset_env_prompt action_cycle_time default_port).node_name =
      resolveName (MyRealTaskGoalEnv.init collab new_roscore roscore_port seed
        reset_env_prompt action_cycle_time default_port).ros_port := by
  cases default_port <;> cases new_roscore <;> cases roscore_port <;>
    cases h : collab.is_roscore_running <;>
      simp [MyRealTaskGoalEnv.init, MyRealTaskGoalEnv._launch_roscore, resolveName,
        taskEnv_underscore, h]

/-- C3: every required extension point of either template, not being
    overridden, evaluates to the NotImplementedError outcome on every
    invocation (never a silently returned default), and neither constructor
    run ever records an extension-point invocation, so construction itself
    cannot raise it. -/
theorem extension_points_fail_fast :
    (∀ (α : Type) (options : Option α),
      MyRealTaskEnv._set_init_params options = Except.error TaskError.notImplementedError) ∧
    (∀ (α : Type) (action : α),
      MyRealTaskEnv._set_action action = Except.error TaskError.notImplementedError) ∧
    (∀ α : Type,
      @MyRealTaskEnv._get_observation α = Except.error TaskError.notImplementedError) ∧
    (∀ (α : Type) (info : Option α),
      MyRealTaskEnv._get_reward info = Except.error TaskError.notImplementedError) ∧
    (∀ (α : Type) (info : Option α),
      MyRealTaskEnv._compute_terminated info = Except.error TaskError.notImplementedError) ∧
    (∀ (α : Type) (info : Option α),
      MyRealTaskEnv._compute_truncated info = Except.error TaskError.notImplementedError) ∧
    (∀ (α : Type) (options : Option α),
      MyRealTaskGoalEnv._set_init_params options = Except.error TaskError.notImplementedError) ∧
    (∀ (α : Type) (action : α),
      MyRealTaskGoalEnv._set_action action = Except.error TaskError.notImplementedError) ∧
    (∀ α : Type,
      @MyRealTaskGoalEnv._get_observation α = Except.error TaskError.notImplementedError) ∧
    (∀ α : Type,
      @MyRealTaskGoalEnv._get_achieved_goal α = Except.error TaskError.notImplementedError) ∧
    (∀ α : Type,
      @MyRealTaskGoalEnv._get_desired_goal α = Except.error TaskError.notImplementedError) ∧
    (∀ (γ ι : Type) (achieved_goal desired_goal : γ) (info : ι),
      MyRealTaskGoalEnv.compute_reward achieved_goal desired_goal info =
        Except.error TaskError.notImplementedError) ∧
    (∀ (γ ι : Type) (achieved_goal desired_goal : γ) (info : ι),
      MyRealTaskGoalEnv.compute_terminated achieved_goal desired_goal info =
        Except.error TaskError.notImplementedError) ∧
    (∀ (γ ι : Type) (achieved_goal desired_goal : γ) (info : ι),
      MyRealTaskGoalEnv.compute_truncated achieved_goal desired_goal info =
        Except.error TaskError.notImplementedError) ∧
    (∀ (collab : RosCollab) (new_roscore : Bool) (roscore_port : Option String)
        (seed : Option Int) (reset_env_prompt : Bool) (action_cycle_time : Rat)
        (default_port : Bool),
      ((MyRealTaskEnv.init collab new_roscore roscore_port seed reset_env_prompt
          action_cycle_time default_port).effects.filter RosEffect.isStubCall) = []) ∧
    (∀ (collab : RosCollab) (new_roscore : Bool) (roscore_port : Option String)
        (seed : Option Int) (reset_env_prompt : Bool) (action_cycle_time : Rat)
        (default_port : Bool),
      ((MyRealTaskGoalEnv.init collab new_roscore roscore_port seed reset_env_prompt
          action_cycle_time default_port).effects.filter RosEffect.isStubCall) = []) := by
  refine ⟨fun _ _ => rfl, fun _ _ => rfl, fun _ => rfl, fun _ _ => rfl, fun _ _ => rfl,
    fun _ _ => rfl, fun _ _ => rfl, fun _ _ => rfl, fun _ => rfl, fun _ => rfl,
    fun _ => rfl, fun _ _ _ _ _ => rfl, fun _ _ _ _ _ => rfl, fun _ _ _ _ _ => rfl,
    ?_, ?_⟩ <;>
  · intro collab new_roscore roscore_port seed reset_env_prompt action_cycle_time default_port
    cases default_port <;> cases new_roscore <;> cases roscore_port <;>
      cases h : collab.is_roscore_running <;>
        simp [MyRealTaskEnv.init, MyRealTaskEnv._launch_roscore,
          MyRealTaskGoalEnv.init, MyRealTaskGoalEnv._launch_roscore,
          RosEffect.isStubCall, h]

/-- C4: after any construction of the goal-conditioned environment, the
    observation space is a Dict space whose top-level keys are exactly
    observation, achieved_goal, desired_goal, for every combination of
    construction parameters. -/
theorem goal_observation_space_keys (collab : RosCollab) (new_roscore : Bool)
    (roscore_port : Option String) (seed : Option Int) (reset_env_prompt : Bool)
    (action_cycle_time : Rat) (default_port : Bool) :
    Space.topKeys (MyRealTaskGoalEnv.init collab new_roscore roscore_port seed
        reset_env_prompt action_cycle_time default_port).observation_space =
      ["observation", "achieved_goal", "desired_goal"] :=
  rfl

/-- C5: constructing with default_port set, against any collaborator whose
    launch operation returns the port it was asked to bind, resolves the
    port to "11311" and the node name to "TaskEnv_11311". -/
theorem default_port_resolves_11311 (collab : RosCollab) (new_roscore : Bool)
    (roscore_port : Option String) (seed : Option Int) (reset_env_prompt : Bool)
    (action_cycle_time : Rat)
    (hlaunch : ∀ (p : String) (s d : Bool), collab.launch_roscore p s d = p) :
    (MyRealTaskEnv.init collab new_roscore roscore_port seed reset_env_prompt
        action_cycle_time true).ros_port = some "11311" ∧
    (MyRealTaskEnv.init collab new_roscore roscore_port seed reset_env_prompt
        action_cycle_time true).node_name = "TaskEnv_11311" := by
  have h := hlaunch "11311" false true
  refine ⟨?_, ?_⟩ <;>
    simp [MyRealTaskEnv.init, MyRealTaskEnv._launch_roscore, h, taskEnv_underscore]

/-- Witness for C5 at the spec-modelled echo collaborator. -/
theorem default_port_resolves_11311_witness :
    (MyRealTaskEnv.init echoCollab true none none false 0 true).ros_port = some "11311" ∧
    (MyRealTaskEnv.init echoCollab true none none false 0 true).node_name = "TaskEnv_11311" :=
  default_port_resolves_11311 echoCollab true none none false 0 (fun _ _ _ => rfl)

/-- C6: constructing with roscore_port "11312", new_roscore false and
    default_port false records, in either variant, exactly one master
    rebind to "11312" and the node registration plus the pass-through
    events, launches no process, and names the node "TaskEnv_11312". -/
theorem attach_branch_frame (collab : RosCollab) (seed : Option Int)
    (reset_env_prompt : Bool) (action_cycle_time : Rat) :
    (MyRealTaskEnv.init collab false (some "11312") seed reset_env_prompt
        action_cycle_time false).effects =
      [RosEffect.changeRosMaster "11312",
       RosEffect.initNode "TaskEnv_11312" true,
       RosEffect.logInfo "Starting Custom Task Env",
       RosEffect.superInit (some "11312") seed reset_env_prompt action_cycle_time,
       RosEffect.logInfo "Finished Init of Custom Task Env"] ∧
    countLaunches (MyRealTaskEnv.init collab false (some "11312") seed
        reset_env_prompt action_cycle_time false).effects = 0 ∧
    (MyRealTaskEnv.init collab false (some "11312") seed reset_env_prompt
        action_cycle_time false).node_name = "TaskEnv_11312" ∧
    (MyRealTaskGoalEnv.init collab false (some "11312") seed reset_env_prompt
        action_cycle_time false).effects =
      [RosEffect.changeRosMaster "11312",
       RosEffect.initNode "TaskEnv_11312" true,
       RosEffect.logInfo "Starting Custom Task Env",
       RosEffect.superInit (some "11312") seed reset_env_prompt action_cycle_time,
       RosEffect.logInfo "Finished Init of Custom Task Env"] ∧
    countLaunches (MyRealTaskGoalEnv.init collab false (some "11312") seed
        reset_env_prompt action_cycle_time false).effects = 0 ∧
    (MyRealTaskGoalEnv.init collab false (some "11312") seed reset_env_prompt
        action_cycle_time false).node_name = "TaskEnv_11312" :=
  ⟨rfl, rfl, rfl, rfl, rfl, rfl⟩

/-- C7: constructing with all flags false and no port supplied probes the
    collaborator; when no roscore is reachable it prints the diagnostic and
    launches exactly one process at the implicit default "11311", and when
    one is reachable it takes no collaborator action before node
    registration and the node name falls back to "TaskEnv". -/
theorem autodetect_branch_behavior (collab : RosCollab) (seed : Option Int)
    (reset_env_prompt : Bool) (action_cycle_time : Rat) :
    (MyRealTaskEnv.init collab false none seed reset_env_prompt
        action_cycle_time false).effects =
      (if collab.is_roscore_running then
        [RosEffect.initNode "TaskEnv" true,
         RosEffect.logInfo "Starting Custom Task Env",
         RosEffect.superInit none seed reset_env_prompt action_cycle_time,
         RosEffect.logInfo "Finished Init of Custom Task Env"]
      else
        [RosEffect.printMsg "roscore is not running! Launching a new roscore!",
         RosEffect.launchRoscore "11311" false false,
         RosEffect.changeRosMaster (collab.launch_roscore "11311" false false),
         RosEffect.initNode ("TaskEnv_" ++ collab.launch_roscore "11311" false false) true,
         RosEffect.logInfo "Starting Custom Task Env",
         RosEffect.superInit (some (collab.launch_roscore "11311" false false))
           seed reset_env_prompt action_cycle_time,
         RosEffect.logInfo "Finished Init of Custom Task Env"]) ∧
    countLaunches (MyRealTaskEnv.init collab false none seed reset_env_prompt
        action_cycle_time false).effects =
      (if collab.is_roscore_running then 0 else 1) ∧
    (MyRealTaskEnv.init collab false none seed reset_env_prompt
        action_cycle_time false).node_name =
      (if collab.is_roscore_running then "TaskEnv"
       else "TaskEnv_" ++ collab.launch_roscore "11311" false false) := by
  cases h : collab.is_roscore_running <;>
    simp [MyRealTaskEnv.init, MyRealTaskEnv._launch_roscore, countLaunches,
      RosEffect.isLaunch, taskEnv_underscore, h]

/-- C9: for every flag combination and either variant, the computed node
    name extends the prefix "TaskEnv" and is non-empty, and the trace holds
    exactly one node registration, carrying that name with the anonymous
    qualifier set to true. -/
theorem node_identity_invariants (collab : RosCollab) (new_roscore : Bool)
    (roscore_port : Option String) (seed : Option Int) (reset_env_prompt : Bool)
    (action_cycle_time : Rat) (default_port : Bool) :
    (∃ s : String,
      (MyRealTaskEnv.init collab new_roscore roscore_port seed reset_env_prompt
        action_cycle_time default_port).node_name = "TaskEnv" ++ s) ∧
    (MyRealTaskEnv.init collab new_roscore roscore_port seed reset_env_prompt
        action_cycle_time default_port).node_name ≠ "" ∧
    ((MyRealTaskEnv.init collab new_roscore roscore_port seed reset_env_prompt
        action_cycle_time default_port).effects.filter RosEffect.isInitNode) =
      [RosEffect.initNode (MyRealTaskEnv.init collab new_roscore roscore_port seed
        reset_env_prompt action_cycle_time default_port).node_name true] ∧
    (∃ s : String,
      (MyRealTaskGoalEnv.init collab new_roscore roscore_port seed reset_env_prompt
        action_cycle_time default_port).node_name = "TaskEnv" ++ s) ∧
    (MyRealTaskGoalEnv.init collab new_roscore roscore_port seed reset_env_prompt
        action_cycle_time default_port).node_name ≠ "" ∧
    ((MyRealTaskGoalEnv.init collab new_roscore roscore_port seed reset_env_prompt
        action_cycle_time default_port).effects.filter RosEffect.isInitNode) =
      [RosEffect.initNode (MyRealTaskGoalEnv.init collab new_roscore roscore_port seed
        reset_env_prompt action_cycle_time default_port).node_name true] := by
  refine ⟨?_, ?_, ?_, ?_, ?_, ?_⟩
  · rw [plain_init_node_name]
    cases (MyRealTaskEnv.init collab new_roscore roscore_port seed reset_env_prompt
        action_cycle_time default_port).ros_port with
    | none => exact ⟨"", rfl⟩
    | some p => exact ⟨"_" ++ p, rfl⟩
  · rw [plain_init_node_name]
    cases (MyRealTaskEnv.init collab new_roscore roscore_port seed reset_env_prompt
        action_cycle_time default_port).ros_port with
    | none => exact taskEnv_append_ne_empty ""
    | some p => exact taskEnv_append_ne_empty ("_" ++ p)
  · cases default_port <;> cases new_roscore <;> cases roscore_port <;>
      cases h : collab.is_roscore_running <;>
        simp [MyRealTaskEnv.init, MyRealTaskEnv._launch_roscore,
          RosEffect.isInitNode, h]
  · rw [goal_init_node_name]
    cases (MyRealTaskGoalEnv.init collab new_roscore roscore_port seed reset_env_prompt
        action_cycle_time default_port).ros_port with
    | none => exact ⟨"", rfl⟩
    | some p => exact ⟨"_" ++ p, rfl⟩
  · rw [goal_init_node_name]
    cases (MyRealTaskGoalEnv.init collab new_roscore roscore_port seed reset_env_prompt
        action_cycle_time default_port).ros_port with
    | none => exact taskEnv_append_ne_empty ""
    | some p => exact taskEnv_append_ne_empty ("_" ++ p)
  · cases default_port <;> cases new_roscore <;> cases roscore_port <;>
      cases h : collab.is_roscore_running <;>
        simp [MyRealTaskGoalEnv.init, MyRealTaskGoalEnv._launch_roscore,
          RosEffect.isInitNode, h]
